import Mathlib

/-!
Shallow embedding of `source/core/objects/cameras/Viewport.js` from the
nunuStudio repository.  Coordinates are modelled by rationals; the small
vector classes from the three.js library (which is not part of the
embedded source tree) are modelled as plain records.
-/

/-- Modelled from the spec: a 2D vector as used by the viewport code.  The
three.js `THREE.Vector2` class is not under `src/`; the spec only relies on
its two components, its no-argument constructor yielding `(0, 0)`, and
`toArray`/`fromArray` exchanging `[x, y]`. -/
structure Vector2 where
  x : ℚ
  y : ℚ
deriving DecidableEq, Repr

/-- Modelled from the spec: `new THREE.Vector2()` yields `(0, 0)`. -/
def Vector2.new : Vector2 := ⟨0, 0⟩

/-- Modelled from the spec: `Vector2.toArray` serializes to `[x, y]`. -/
def Vector2.toArray (v : Vector2) : List ℚ := [v.x, v.y]

/-- Modelled from the spec: `Vector2.fromArray` reads `x` from index 0 and
`y` from index 1 of the data array. -/
def Vector2.fromArray (a : List ℚ) : Vector2 := ⟨a.getD 0 0, a.getD 1 0⟩

/-- Modelled from the spec: a 4-component rectangle `(x, y, z, w)` standing
for `THREE.Vector4`, which is not under `src/`. -/
structure Vector4 where
  x : ℚ
  y : ℚ
  z : ℚ
  w : ℚ
deriving DecidableEq, Repr

/-- Modelled from the spec: the spec states that construction initializes
`viewport = (0, 0, 0, 0)`, so the no-argument `THREE.Vector4` constructor
is taken to produce `(0, 0, 0, 0)`. -/
def Vector4.new : Vector4 := ⟨0, 0, 0, 0⟩

/-- State of `Viewport` objects: the five fields set up by the `Viewport`
constructor function. -/
structure Viewport where
  offset : Vector2
  size : Vector2
  mode : ℕ
  anchor : ℕ
  viewport : Vector4
deriving DecidableEq, Repr

/-- `Viewport.RELATIVE = 200`. -/
def Viewport.RELATIVE : ℕ := 200

/-- `Viewport.ABSOLUTE = 201`. -/
def Viewport.ABSOLUTE : ℕ := 201

/-- `Viewport.TOP_LEFT = 301`. -/
def Viewport.TOP_LEFT : ℕ := 301

/-- `Viewport.TOP_RIGHT = 302`. -/
def Viewport.TOP_RIGHT : ℕ := 302

/-- `Viewport.BOTTOM_LEFT = 303`. -/
def Viewport.BOTTOM_LEFT : ℕ := 303

/-- `Viewport.BOTTOM_RIGHT = 304`. -/
def Viewport.BOTTOM_RIGHT : ℕ := 304

/-- The constructor `function Viewport(mode)`: `offset = new Vector2(0,0)`,
`size = new Vector2(1,1)`, `mode = mode !== undefined ? mode : RELATIVE`
(an omitted argument is `none`), `anchor = TOP_LEFT`,
`viewport = new Vector4()`. -/
def Viewport.new (mode : Option ℕ) : Viewport :=
  { offset := ⟨0, 0⟩
    size := ⟨1, 1⟩
    mode := mode.getD Viewport.RELATIVE
    anchor := Viewport.TOP_LEFT
    viewport := Vector4.new }

/-- `Viewport.prototype.update`: the body is only `//TODO <ADD CODE HERE>`,
so the state is returned unchanged. -/
def Viewport.update (v : Viewport) : Viewport := v

/-- `Viewport.prototype.getAspectRatio`: `this.size.x / this.size.y`. -/
def Viewport.getAspectRatio (v : Viewport) : ℚ := v.size.x / v.size.y

/-- The `offset` local variable computed identically at the top of
`isInside`, `getNormalized` and `enable`: scaled by the surface in
RELATIVE mode, the raw `this.offset` otherwise. -/
def Viewport.effectiveOffset (v : Viewport) (width height : ℚ) : Vector2 :=
  if v.mode = Viewport.RELATIVE then ⟨v.offset.x * width, v.offset.y * height⟩
  else v.offset

/-- The `viewport` local variable computed identically at the top of
`isInside`, `getNormalized` and `enable`: scaled by the surface in
RELATIVE mode, the raw `this.size` otherwise. -/
def Viewport.effectiveSize (v : Viewport) (width height : ℚ) : Vector2 :=
  if v.mode = Viewport.RELATIVE then ⟨v.size.x * width, v.size.y * height⟩
  else v.size

/-- `Viewport.prototype.isInside(canvas, mouse)`, with the canvas passed as
its `width`/`height` and the mouse as its position `(px, py)`. -/
def Viewport.isInside (v : Viewport) (width height px py : ℚ) : Bool :=
  let offset := Viewport.effectiveOffset v width height
  let viewport := Viewport.effectiveSize v width height
  if v.anchor = Viewport.TOP_LEFT then
    decide (px > offset.x) && decide (px < offset.x + viewport.x) &&
    decide (py > offset.y) && decide (py < offset.y + viewport.y)
  else if v.anchor = Viewport.TOP_RIGHT then
    decide (px > width - viewport.x - offset.x) && decide (px < width - offset.x) &&
    decide (py > offset.y) && decide (py < offset.y + viewport.y)
  else if v.anchor = Viewport.BOTTOM_LEFT then
    decide (px > offset.x) && decide (px < offset.x + viewport.x) &&
    decide (py > height - offset.y - viewport.y) && decide (py < height - offset.y)
  else
    decide (px > width - viewport.x - offset.x) && decide (px < width - offset.x) &&
    decide (py > height - offset.y - viewport.y) && decide (py < height - offset.y)

/-- `Viewport.prototype.getNormalized(canvas, mouse)`.  The shared scratch
vector of the source closure is irrelevant to the value computed: both
components are overwritten on every call, so the call is modelled as a pure
function returning that value. -/
def Viewport.getNormalized (v : Viewport) (width height px py : ℚ) : Vector2 :=
  let offset := Viewport.effectiveOffset v width height
  let viewport := Viewport.effectiveSize v width height
  if v.anchor = Viewport.TOP_LEFT then
    let x := px - viewport.x - offset.x
    let y := py - offset.y
    ⟨(x / viewport.x) * 2 + 1, ((-y) / viewport.y) * 2 + 1⟩
  else if v.anchor = Viewport.TOP_RIGHT then
    let x := width - px - viewport.x - offset.x
    let y := py - offset.y
    ⟨((-x) / viewport.x) * 2 - 1, ((-y) / viewport.y) * 2 + 1⟩
  else if v.anchor = Viewport.BOTTOM_LEFT then
    let x := px - viewport.x - offset.x
    let y := height - py - offset.y
    ⟨(x / viewport.x) * 2 + 1, (y / viewport.y) * 2 - 1⟩
  else
    let x := width - px - viewport.x - offset.x
    let y := height - py - offset.y
    ⟨((-x) / viewport.x) * 2 - 1, (y / viewport.y) * 2 - 1⟩

/-- The rendering backend handed to `enable`: its canvas dimensions
(`renderer.domElement.width`/`.height`) and the two rectangles written by
`setViewport` and `setScissor`. -/
structure WebGLRenderer where
  domElementWidth : ℚ
  domElementHeight : ℚ
  viewport : Vector4
  scissor : Vector4
deriving DecidableEq, Repr

/-- `renderer.setViewport(x, y, width, height)`. -/
def WebGLRenderer.setViewport (r : WebGLRenderer) (x y w h : ℚ) : WebGLRenderer :=
  { r with viewport := ⟨x, y, w, h⟩ }

/-- `renderer.setScissor(x, y, width, height)`. -/
def WebGLRenderer.setScissor (r : WebGLRenderer) (x y w h : ℚ) : WebGLRenderer :=
  { r with scissor := ⟨x, y, w, h⟩ }

/-- `Viewport.prototype.enable(renderer)`. -/
def Viewport.enable (v : Viewport) (renderer : WebGLRenderer) : WebGLRenderer :=
  let width := renderer.domElementWidth
  let height := renderer.domElementHeight
  let offset := Viewport.effectiveOffset v width height
  let viewport := Viewport.effectiveSize v width height
  if v.anchor = Viewport.BOTTOM_LEFT then
    (renderer.setViewport offset.x offset.y viewport.x viewport.y).setScissor
      offset.x offset.y viewport.x viewport.y
  else if v.anchor = Viewport.BOTTOM_RIGHT then
    let x := width - viewport.x - offset.x
    (renderer.setViewport x offset.y viewport.x viewport.y).setScissor
      x offset.y viewport.x viewport.y
  else if v.anchor = Viewport.TOP_LEFT then
    let y := height - viewport.y - offset.y
    (renderer.setViewport offset.x y viewport.x viewport.y).setScissor
      offset.x y viewport.x viewport.y
  else
    let x := width - viewport.x - offset.x
    let y := height - viewport.y - offset.y
    (renderer.setViewport x y viewport.x viewport.y).setScissor
      x y viewport.x viewport.y

/-- The record built by `Viewport.prototype.toJSON`: exactly the fields
`offset`, `size`, `mode` and `anchor`; the `viewport` rectangle is not
part of it. -/
structure ViewportJSON where
  offset : List ℚ
  size : List ℚ
  mode : ℕ
  anchor : ℕ
deriving DecidableEq, Repr

/-- `Viewport.prototype.toJSON`. -/
def Viewport.toJSON (v : Viewport) : ViewportJSON :=
  { offset := v.offset.toArray
    size := v.size.toArray
    mode := v.mode
    anchor := v.anchor }

/-- `Viewport.prototype.fromJSON(data)`: writes `offset`, `size`, `mode`
and `anchor`; the `viewport` field is not written. -/
def Viewport.fromJSON (v : Viewport) (data : ViewportJSON) : Viewport :=
  { v with
    offset := Vector2.fromArray data.offset
    size := Vector2.fromArray data.size
    mode := data.mode
    anchor := data.anchor }

/-! Per-anchor characterizations of `isInside`, shared by the claim
theorems below. -/

lemma isInside_iff_TL (v : Viewport) (width height px py : ℚ)
    (h : v.anchor = Viewport.TOP_LEFT) :
    Viewport.isInside v width height px py = true ↔
      ((Viewport.effectiveOffset v width height).x < px ∧
       px < (Viewport.effectiveOffset v width height).x +
         (Viewport.effectiveSize v width height).x ∧
       (Viewport.effectiveOffset v width height).y < py ∧
       py < (Viewport.effectiveOffset v width height).y +
         (Viewport.effectiveSize v width height).y) := by
  simp only [Viewport.isInside, h, Viewport.TOP_LEFT, Viewport.TOP_RIGHT,
    Viewport.BOTTOM_LEFT, Viewport.BOTTOM_RIGHT]
  simp [Bool.and_eq_true, decide_eq_true_eq, gt_iff_lt, and_assoc]

lemma isInside_iff_TR (v : Viewport) (width height px py : ℚ)
    (h : v.anchor = Viewport.TOP_RIGHT) :
    Viewport.isInside v width height px py = true ↔
      (width - (Viewport.effectiveSize v width height).x -
         (Viewport.effectiveOffset v width height).x < px ∧
       px < width - (Viewport.effectiveOffset v width height).x ∧
       (Viewport.effectiveOffset v width height).y < py ∧
       py < (Viewport.effectiveOffset v width height).y +
         (Viewport.effectiveSize v width height).y) := by
  simp only [Viewport.isInside, h, Viewport.TOP_LEFT, Viewport.TOP_RIGHT,
    Viewport.BOTTOM_LEFT, Viewport.BOTTOM_RIGHT]
  simp [Bool.and_eq_true, decide_eq_true_eq, gt_iff_lt, and_assoc]

lemma isInside_iff_BL (v : Viewport) (width height px py : ℚ)
    (h : v.anchor = Viewport.BOTTOM_LEFT) :
    Viewport.isInside v width height px py = true ↔
      ((Viewport.effectiveOffset v width height).x < px ∧
       px < (Viewport.effectiveOffset v width height).x +
         (Viewport.effectiveSize v width height).x ∧
       height - (Viewport.effectiveOffset v width height).y -
         (Viewport.effectiveSize v width height).y < py ∧
       py < height - (Viewport.effectiveOffset v width height).y) := by
  simp only [Viewport.isInside, h, Viewport.TOP_LEFT, Viewport.TOP_RIGHT,
    Viewport.BOTTOM_LEFT, Viewport.BOTTOM_RIGHT]
  simp [Bool.and_eq_true, decide_eq_true_eq, gt_iff_lt, and_assoc]

lemma isInside_iff_BR (v : Viewport) (width height px py : ℚ)
    (h1 : ¬ v.anchor = Viewport.TOP_LEFT) (h2 : ¬ v.anchor = Viewport.TOP_RIGHT)
    (h3 : ¬ v.anchor = Viewport.BOTTOM_LEFT) :
    Viewport.isInside v width height px py = true ↔
      (width - (Viewport.effectiveSize v width height).x -
         (Viewport.effectiveOffset v width height).x < px ∧
       px < width - (Viewport.effectiveOffset v width height).x ∧
       height - (Viewport.effectiveOffset v width height).y -
         (Viewport.effectiveSize v width height).y < py ∧
       py < height - (Viewport.effectiveOffset v width height).y) := by
  simp only [Viewport.isInside, if_neg h1, if_neg h2, if_neg h3]
  simp [Bool.and_eq_true, decide_eq_true_eq, gt_iff_lt, and_assoc]

/-! Per-anchor characterizations of `enable`. -/

lemma enable_eq_BL (v : Viewport) (r : WebGLRenderer)
    (h : v.anchor = Viewport.BOTTOM_LEFT) :
    Viewport.enable v r =
      { r with
        viewport :=
          ⟨(Viewport.effectiveOffset v r.domElementWidth r.domElementHeight).x,
           (Viewport.effectiveOffset v r.domElementWidth r.domElementHeight).y,
           (Viewport.effectiveSize v r.domElementWidth r.domElementHeight).x,
           (Viewport.effectiveSize v r.domElementWidth r.domElementHeight).y⟩
        scissor :=
          ⟨(Viewport.effectiveOffset v r.domElementWidth r.domElementHeight).x,
           (Viewport.effectiveOffset v r.domElementWidth r.domElementHeight).y,
           (Viewport.effectiveSize v r.domElementWidth r.domElementHeight).x,
           (Viewport.effectiveSize v r.domElementWidth r.domElementHeight).y⟩ } := by
  simp [Viewport.enable, h, Viewport.TOP_LEFT, Viewport.TOP_RIGHT,
    Viewport.BOTTOM_LEFT, Viewport.BOTTOM_RIGHT,
    WebGLRenderer.setViewport, WebGLRenderer.setScissor]

lemma enable_eq_BR (v : Viewport) (r : WebGLRenderer)
    (h : v.anchor = Viewport.BOTTOM_RIGHT) :
    Viewport.enable v r =
      { r with
        viewport :=
          ⟨r.domElementWidth -
             (Viewport.effectiveSize v r.domElementWidth r.domElementHeight).x -
             (Viewport.effectiveOffset v r.domElementWidth r.domElementHeight).x,
           (Viewport.effectiveOffset v r.domElementWidth r.domElementHeight).y,
           (Viewport.effectiveSize v r.domElementWidth r.domElementHeight).x,
           (Viewport.effectiveSize v r.domElementWidth r.domElementHeight).y⟩
        scissor :=
          ⟨r.domElementWidth -
             (Viewport.effectiveSize v r.domElementWidth r.domElementHeight).x -
             (Viewport.effectiveOffset v r.domElementWidth r.domElementHeight).x,
           (Viewport.effectiveOffset v r.domElementWidth r.domElementHeight).y,
           (Viewport.effectiveSize v r.domElementWidth r.domElementHeight).x,
           (Viewport.effectiveSize v r.domElementWidth r.domElementHeight).y⟩ } := by
  simp [Viewport.enable, h, Viewport.TOP_LEFT, Viewport.TOP_RIGHT,
    Viewport.BOTTOM_LEFT, Viewport.BOTTOM_RIGHT,
    WebGLRenderer.setViewport, WebGLRenderer.setScissor]

lemma enable_eq_TL (v : Viewport) (r : WebGLRenderer)
    (h : v.anchor = Viewport.TOP_LEFT) :
    Viewport.enable v r =
      { r with
        viewport :=
          ⟨(Viewport.effectiveOffset v r.domElementWidth r.domElementHeight).x,
           r.domElementHeight -
             (Viewport.effectiveSize v r.domElementWidth r.domElementHeight).y -
             (Viewport.effectiveOffset v r.domElementWidth r.domElementHeight).y,
           (Viewport.effectiveSize v r.domElementWidth r.domElementHeight).x,
           (Viewport.effectiveSize v r.domElementWidth r.domElementHeight).y⟩
        scissor :=
          ⟨(Viewport.effectiveOffset v r.domElementWidth r.domElementHeight).x,
           r.domElementHeight -
             (Viewport.effectiveSize v r.domElementWidth r.domElementHeight).y -
             (Viewport.effectiveOffset v r.domElementWidth r.domElementHeight).y,
           (Viewport.effectiveSize v r.domElementWidth r.domElementHeight).x,
           (Viewport.effectiveSize v r.domElementWidth r.domElementHeight).y⟩ } := by
  simp [Viewport.enable, h, Viewport.TOP_LEFT, Viewport.TOP_RIGHT,
    Viewport.BOTTOM_LEFT, Viewport.BOTTOM_RIGHT,
    WebGLRenderer.setViewport, WebGLRenderer.setScissor]

lemma enable_eq_TR (v : Viewport) (r : WebGLRenderer)
    (h1 : ¬ v.anchor = Viewport.BOTTOM_LEFT) (h2 : ¬ v.anchor = Viewport.BOTTOM_RIGHT)
    (h3 : ¬ v.anchor = Viewport.TOP_LEFT) :
    Viewport.enable v r =
      { r with
        viewport :=
          ⟨r.domElementWidth -
             (Viewport.effectiveSize v r.domElementWidth r.domElementHeight).x -
             (Viewport.effectiveOffset v r.domElementWidth r.domElementHeight).x,
           r.domElementHeight -
             (Viewport.effectiveSize v r.domElementWidth r.domElementHeight).y -
             (Viewport.effectiveOffset v r.domElementWidth r.domElementHeight).y,
           (Viewport.effectiveSize v r.domElementWidth r.domElementHeight).x,
           (Viewport.effectiveSize v r.domElementWidth r.domElementHeight).y⟩
        scissor :=
          ⟨r.domElementWidth -
             (Viewport.effectiveSize v r.domElementWidth r.domElementHeight).x -
             (Viewport.effectiveOffset v r.domElementWidth r.domElementHeight).x,
           r.domElementHeight -
             (Viewport.effectiveSize v r.domElementWidth r.domElementHeight).y -
             (Viewport.effectiveOffset v r.domElementWidth r.domElementHeight).y,
           (Viewport.effectiveSize v r.domElementWidth r.domElementHeight).x,
           (Viewport.effectiveSize v r.domElementWidth r.domElementHeight).y⟩ } := by
  simp [Viewport.enable, if_neg h1, if_neg h2, if_neg h3,
    WebGLRenderer.setViewport, WebGLRenderer.setScissor]

/-- C1: for every viewport state and surface, `enable` sets both the
backend's viewport rectangle and its scissor rectangle to the same pixel
rectangle, computed per anchor from the effective offset `(ox, oy)` and
effective size `(sx, sy)`: BOTTOM_LEFT gives `(ox, oy, sx, sy)`,
BOTTOM_RIGHT gives `(width - sx - ox, oy, sx, sy)`, TOP_LEFT gives
`(ox, height - sy - oy, sx, sy)`, and TOP_RIGHT gives
`(width - sx - ox, height - sy - oy, sx, sy)`. -/
theorem C1_enable_sets_viewport_and_scissor (v : Viewport) (r : WebGLRenderer) :
    (v.anchor = Viewport.BOTTOM_LEFT →
      (Viewport.enable v r).viewport =
        ⟨(Viewport.effectiveOffset v r.domElementWidth r.domElementHeight).x,
         (Viewport.effectiveOffset v r.domElementWidth r.domElementHeight).y,
         (Viewport.effectiveSize v r.domElementWidth r.domElementHeight).x,
         (Viewport.effectiveSize v r.domElementWidth r.domElementHeight).y⟩ ∧
      (Viewport.enable v r).scissor = (Viewport.enable v r).viewport) ∧
    (v.anchor = Viewport.BOTTOM_RIGHT →
      (Viewport.enable v r).viewport =
        ⟨r.domElementWidth -
           (Viewport.effectiveSize v r.domElementWidth r.domElementHeight).x -
           (Viewport.effectiveOffset v r.domElementWidth r.domElementHeight).x,
         (Viewport.effectiveOffset v r.domElementWidth r.domElementHeight).y,
         (Viewport.effectiveSize v r.domElementWidth r.domElementHeight).x,
         (Viewport.effectiveSize v r.domElementWidth r.domElementHeight).y⟩ ∧
      (Viewport.enable v r).scissor = (Viewport.enable v r).viewport) ∧
    (v.anchor = Viewport.TOP_LEFT →
      (Viewport.enable v r).viewport =
        ⟨(Viewport.effectiveOffset v r.domElementWidth r.domElementHeight).x,
         r.domElementHeight -
           (Viewport.effectiveSize v r.domElementWidth r.domElementHeight).y -
           (Viewport.effectiveOffset v r.domElementWidth r.domElementHeight).y,
         (Viewport.effectiveSize v r.domElementWidth r.domElementHeight).x,
         (Viewport.effectiveSize v r.domElementWidth r.domElementHeight).y⟩ ∧
      (Viewport.enable v r).scissor = (Viewport.enable v r).viewport) ∧
    (v.anchor = Viewport.TOP_RIGHT →
      (Viewport.enable v r).viewport =
        ⟨r.domElementWidth -
           (Viewport.effectiveSize v r.domElementWidth r.domElementHeight).x -
           (Viewport.effectiveOffset v r.domElementWidth r.domElementHeight).x,
         r.domElementHeight -
           (Viewport.effectiveSize v r.domElementWidth r.domElementHeight).y -
           (Viewport.effectiveOffset v r.domElementWidth r.domElementHeight).y,
         (Viewport.effectiveSize v r.domElementWidth r.domElementHeight).x,
         (Viewport.effectiveSize v r.domElementWidth r.domElementHeight).y⟩ ∧
      (Viewport.enable v r).scissor = (Viewport.enable v r).viewport) := by
  refine ⟨fun h => ?_, fun h => ?_, fun h => ?_, fun h => ?_⟩
  · rw [enable_eq_BL v r h]; exact ⟨rfl, rfl⟩
  · rw [enable_eq_BR v r h]; exact ⟨rfl, rfl⟩
  · rw [enable_eq_TL v r h]; exact ⟨rfl, rfl⟩
  · rw [enable_eq_TR v r (by rw [h]; decide) (by rw [h]; decide) (by rw [h]; decide)]
    exact ⟨rfl, rfl⟩

/-- C1 witness: with surface `(1000, 500)`, offset `(10, 10)`, size
`(100, 50)` and mode ABSOLUTE, the four anchors produce exactly
`(10,10,100,50)`, `(890,10,100,50)`, `(10,440,100,50)` and
`(890,440,100,50)`, on both the viewport and the scissor rectangle. -/
theorem C1_enable_witness :
    (Viewport.enable
        ⟨⟨10, 10⟩, ⟨100, 50⟩, Viewport.ABSOLUTE, Viewport.BOTTOM_LEFT, Vector4.new⟩
        ⟨1000, 500, Vector4.new, Vector4.new⟩).viewport = ⟨10, 10, 100, 50⟩ ∧
    (Viewport.enable
        ⟨⟨10, 10⟩, ⟨100, 50⟩, Viewport.ABSOLUTE, Viewport.BOTTOM_RIGHT, Vector4.new⟩
        ⟨1000, 500, Vector4.new, Vector4.new⟩).viewport = ⟨890, 10, 100, 50⟩ ∧
    (Viewport.enable
        ⟨⟨10, 10⟩, ⟨100, 50⟩, Viewport.ABSOLUTE, Viewport.TOP_LEFT, Vector4.new⟩
        ⟨1000, 500, Vector4.new, Vector4.new⟩).viewport = ⟨10, 440, 100, 50⟩ ∧
    (Viewport.enable
        ⟨⟨10, 10⟩, ⟨100, 50⟩, Viewport.ABSOLUTE, Viewport.TOP_RIGHT, Vector4.new⟩
        ⟨1000, 500, Vector4.new, Vector4.new⟩).viewport = ⟨890, 440, 100, 50⟩ ∧
    (Viewport.enable
        ⟨⟨10, 10⟩, ⟨100, 50⟩, Viewport.ABSOLUTE, Viewport.TOP_RIGHT, Vector4.new⟩
        ⟨1000, 500, Vector4.new, Vector4.new⟩).scissor = ⟨890, 440, 100, 50⟩ := by
  have hBL := (C1_enable_sets_viewport_and_scissor
    ⟨⟨10, 10⟩, ⟨100, 50⟩, Viewport.ABSOLUTE, Viewport.BOTTOM_LEFT, Vector4.new⟩
    ⟨1000, 500, Vector4.new, Vector4.new⟩).1 rfl
  have hBR := (C1_enable_sets_viewport_and_scissor
    ⟨⟨10, 10⟩, ⟨100, 50⟩, Viewport.ABSOLUTE, Viewport.BOTTOM_RIGHT, Vector4.new⟩
    ⟨1000, 500, Vector4.new, Vector4.new⟩).2.1 rfl
  have hTL := (C1_enable_sets_viewport_and_scissor
    ⟨⟨10, 10⟩, ⟨100, 50⟩, Viewport.ABSOLUTE, Viewport.TOP_LEFT, Vector4.new⟩
    ⟨1000, 500, Vector4.new, Vector4.new⟩).2.2.1 rfl
  have hTR := (C1_enable_sets_viewport_and_scissor
    ⟨⟨10, 10⟩, ⟨100, 50⟩, Viewport.ABSOLUTE, Viewport.TOP_RIGHT, Vector4.new⟩
    ⟨1000, 500, Vector4.new, Vector4.new⟩).2.2.2 rfl
  refine ⟨?_, ?_, ?_, ?_, ?_⟩
  · rw [hBL.1]
    norm_num [Viewport.effectiveOffset, Viewport.effectiveSize,
      Viewport.RELATIVE, Viewport.ABSOLUTE]
  · rw [hBR.1]
    norm_num [Viewport.effectiveOffset, Viewport.effectiveSize,
      Viewport.RELATIVE, Viewport.ABSOLUTE]
  · rw [hTL.1]
    norm_num [Viewport.effectiveOffset, Viewport.effectiveSize,
      Viewport.RELATIVE, Viewport.ABSOLUTE]
  · rw [hTR.1]
    norm_num [Viewport.effectiveOffset, Viewport.effectiveSize,
      Viewport.RELATIVE, Viewport.ABSOLUTE]
  · rw [hTR.2, hTR.1]
    norm_num [Viewport.effectiveOffset, Viewport.effectiveSize,
      Viewport.RELATIVE, Viewport.ABSOLUTE]

/-- C2: for every state and pointer, `isInside` is an open-rectangle test
with strict inequalities on all four bounds, computed per anchor from the
effective offset and size: TOP_LEFT tests `ox < px < ox + sx` and
`oy < py < oy + sy`; TOP_RIGHT flips the horizontal test to
`width - sx - ox < px < width - ox`; BOTTOM_LEFT flips the vertical test to
`height - oy - sy < py < height - oy`; BOTTOM_RIGHT flips both. -/
theorem C2_isInside_open_rectangle (v : Viewport) (width height px py : ℚ) :
    (v.anchor = Viewport.TOP_LEFT →
      (Viewport.isInside v width height px py = true ↔
        ((Viewport.effectiveOffset v width height).x < px ∧
         px < (Viewport.effectiveOffset v width height).x +
           (Viewport.effectiveSize v width height).x ∧
         (Viewport.effectiveOffset v width height).y < py ∧
         py < (Viewport.effectiveOffset v width height).y +
           (Viewport.effectiveSize v width height).y))) ∧
    (v.anchor = Viewport.TOP_RIGHT →
      (Viewport.isInside v width height px py = true ↔
        (width - (Viewport.effectiveSize v width height).x -
           (Viewport.effectiveOffset v width height).x < px ∧
         px < width - (Viewport.effectiveOffset v width height).x ∧
         (Viewport.effectiveOffset v width height).y < py ∧
         py < (Viewport.effectiveOffset v width height).y +
           (Viewport.effectiveSize v width height).y))) ∧
    (v.anchor = Viewport.BOTTOM_LEFT →
      (Viewport.isInside v width height px py = true ↔
        ((Viewport.effectiveOffset v width height).x < px ∧
         px < (Viewport.effectiveOffset v width height).x +
           (Viewport.effectiveSize v width height).x ∧
         height - (Viewport.effectiveOffset v width height).y -
           (Viewport.effectiveSize v width height).y < py ∧
         py < height - (Viewport.effectiveOffset v width height).y))) ∧
    (v.anchor = Viewport.BOTTOM_RIGHT →
      (Viewport.isInside v width height px py = true ↔
        (width - (Viewport.effectiveSize v width height).x -
           (Viewport.effectiveOffset v width height).x < px ∧
         px < width - (Viewport.effectiveOffset v width height).x ∧
         height - (Viewport.effectiveOffset v width height).y -
           (Viewport.effectiveSize v width height).y < py ∧
         py < height - (Viewport.effectiveOffset v width height).y))) :=
  ⟨fun h => isInside_iff_TL v width height px py h,
   fun h => isInside_iff_TR v width height px py h,
   fun h => isInside_iff_BL v width height px py h,
   fun h => isInside_iff_BR v width height px py
     (by rw [h]; decide) (by rw [h]; decide) (by rw [h]; decide)⟩

/-- C2 witness: with mode RELATIVE, anchor TOP_LEFT, offset `(0, 0)`,
size `(1, 1)` and surface `(800, 600)`, the pointer `(400, 300)` is
inside while the boundary pointers `(0, 0)` and `(800, 600)` are
outside. -/
theorem C2_isInside_witness :
    (Viewport.new none).anchor = Viewport.TOP_LEFT ∧
    Viewport.isInside (Viewport.new none) 800 600 400 300 = true ∧
    Viewport.isInside (Viewport.new none) 800 600 0 0 = false ∧
    Viewport.isInside (Viewport.new none) 800 600 800 600 = false := by
  refine ⟨rfl, ?_, ?_, ?_⟩
  · refine ((C2_isInside_open_rectangle (Viewport.new none) 800 600 400 300).1 rfl).mpr ?_
    norm_num [Viewport.effectiveOffset, Viewport.effectiveSize, Viewport.new,
      Viewport.RELATIVE]
  · refine Bool.eq_false_iff.mpr fun hc => ?_
    have h0 := ((C2_isInside_open_rectangle (Viewport.new none) 800 600 0 0).1 rfl).mp hc
    norm_num [Viewport.effectiveOffset, Viewport.effectiveSize, Viewport.new,
      Viewport.RELATIVE] at h0
  · refine Bool.eq_false_iff.mpr fun hc => ?_
    have h0 := ((C2_isInside_open_rectangle (Viewport.new none) 800 600 800 600).1 rfl).mp hc
    norm_num [Viewport.effectiveOffset, Viewport.effectiveSize, Viewport.new,
      Viewport.RELATIVE] at h0

/-- C4: `toJSON` produces exactly the record
`{offset := [x, y], size := [x, y], mode, anchor}` (the `viewport`
rectangle is not part of the record type), and `fromJSON` of that record
on any viewport `w` restores `offset`, `size`, `mode` and `anchor` while
leaving `w.viewport` at its prior value. -/
theorem C4_toJSON_fromJSON_roundtrip (v w : Viewport) :
    Viewport.toJSON v =
      ⟨[v.offset.x, v.offset.y], [v.size.x, v.size.y], v.mode, v.anchor⟩ ∧
    (Viewport.fromJSON w (Viewport.toJSON v)).offset = v.offset ∧
    (Viewport.fromJSON w (Viewport.toJSON v)).size = v.size ∧
    (Viewport.fromJSON w (Viewport.toJSON v)).mode = v.mode ∧
    (Viewport.fromJSON w (Viewport.toJSON v)).anchor = v.anchor ∧
    (Viewport.fromJSON w (Viewport.toJSON v)).viewport = w.viewport :=
  ⟨rfl, rfl, rfl, rfl, rfl, rfl⟩

/-- C5: `update` is a no-op: the state and every field of it are
unchanged, in particular the `viewport` rectangle. -/
theorem C5_update_is_noop (v : Viewport) :
    Viewport.update v = v ∧
    (Viewport.update v).offset = v.offset ∧
    (Viewport.update v).size = v.size ∧
    (Viewport.update v).mode = v.mode ∧
    (Viewport.update v).anchor = v.anchor ∧
    (Viewport.update v).viewport = v.viewport :=
  ⟨rfl, rfl, rfl, rfl, rfl, rfl⟩

/-- C6: constructing with the mode argument omitted yields mode RELATIVE,
and every construction initializes offset `(0,0)`, size `(1,1)`, anchor
TOP_LEFT and viewport `(0,0,0,0)`. -/
theorem C6_constructor_defaults (m : ℕ) :
    (Viewport.new none).mode = Viewport.RELATIVE ∧
    (Viewport.new (some m)).mode = m ∧
    ∀ mo : Option ℕ,
      (Viewport.new mo).offset = ⟨0, 0⟩ ∧
      (Viewport.new mo).size = ⟨1, 1⟩ ∧
      (Viewport.new mo).anchor = Viewport.TOP_LEFT ∧
      (Viewport.new mo).viewport = ⟨0, 0, 0, 0⟩ :=
  ⟨rfl, rfl, fun _ => ⟨rfl, rfl, rfl, rfl⟩⟩

/-- C7: `getAspectRatio` returns `size.x / size.y` and depends only on the
`size` field: two viewports with the same size have the same aspect ratio
whatever their mode, offset, anchor and viewport fields, and no surface
dimension enters the computation. -/
theorem C7_aspect_ratio_only_size (v w : Viewport) (h : v.size = w.size) :
    Viewport.getAspectRatio v = v.size.x / v.size.y ∧
    Viewport.getAspectRatio v = Viewport.getAspectRatio w :=
  ⟨rfl, by rw [Viewport.getAspectRatio, Viewport.getAspectRatio, h]⟩

/-- C7 witness: size `(1/2, 1/4)` gives aspect ratio 2 whatever the mode,
offset and anchor, and size `(640, 480)` in ABSOLUTE mode gives 4/3. -/
theorem C7_aspect_ratio_witness :
    (⟨⟨0, 0⟩, ⟨1/2, 1/4⟩, Viewport.RELATIVE, Viewport.TOP_LEFT, ⟨0, 0, 0, 0⟩⟩ :
        Viewport).size =
      (⟨⟨3, 7⟩, ⟨1/2, 1/4⟩, Viewport.ABSOLUTE, Viewport.BOTTOM_RIGHT, ⟨1, 2, 3, 4⟩⟩ :
        Viewport).size ∧
    Viewport.getAspectRatio
      ⟨⟨0, 0⟩, ⟨1/2, 1/4⟩, Viewport.RELATIVE, Viewport.TOP_LEFT, ⟨0, 0, 0, 0⟩⟩ = 2 ∧
    Viewport.getAspectRatio
        ⟨⟨0, 0⟩, ⟨1/2, 1/4⟩, Viewport.RELATIVE, Viewport.TOP_LEFT, ⟨0, 0, 0, 0⟩⟩ =
      Viewport.getAspectRatio
        ⟨⟨3, 7⟩, ⟨1/2, 1/4⟩, Viewport.ABSOLUTE, Viewport.BOTTOM_RIGHT, ⟨1, 2, 3, 4⟩⟩ ∧
    Viewport.getAspectRatio
      ⟨⟨0, 0⟩, ⟨640, 480⟩, Viewport.ABSOLUTE, Viewport.TOP_LEFT, ⟨0, 0, 0, 0⟩⟩ = 4 / 3 := by
  refine ⟨rfl, ?_, (C7_aspect_ratio_only_size _ _ rfl).2, ?_⟩
  · norm_num [Viewport.getAspectRatio]
  · norm_num [Viewport.getAspectRatio]

/-- C8: the enumeration constants are RELATIVE = 200, ABSOLUTE = 201,
TOP_LEFT = 301, TOP_RIGHT = 302, BOTTOM_LEFT = 303, BOTTOM_RIGHT = 304,
and `toJSON` emits the state's numeric mode and anchor values unchanged in
its `mode` and `anchor` fields. -/
theorem C8_enum_encodings (v : Viewport) :
    Viewport.RELATIVE = 200 ∧ Viewport.ABSOLUTE = 201 ∧
    Viewport.TOP_LEFT = 301 ∧ Viewport.TOP_RIGHT = 302 ∧
    Viewport.BOTTOM_LEFT = 303 ∧ Viewport.BOTTOM_RIGHT = 304 ∧
    (Viewport.toJSON v).mode = v.mode ∧ (Viewport.toJSON v).anchor = v.anchor :=
  ⟨rfl, rfl, rfl, rfl, rfl, rfl, rfl, rfl⟩

/-! Bounds for the two normalization shapes `a / s * 2 + 1` and
`a / s * 2 - 1` appearing in `getNormalized`. -/

lemma normalized_bound_plus {a s : ℚ} (hs : 0 < s) (h1 : -s < a) (h2 : a < 0) :
    -1 < a / s * 2 + 1 ∧ a / s * 2 + 1 < 1 := by
  have h3 : a / s < 0 := div_neg_of_neg_of_pos h2 hs
  have h4 : -1 < a / s := by
    rw [neg_lt, ← neg_div]
    exact (div_lt_one hs).mpr (by linarith)
  constructor <;> linarith

lemma normalized_bound_minus {a s : ℚ} (hs : 0 < s) (h1 : 0 < a) (h2 : a < s) :
    -1 < a / s * 2 - 1 ∧ a / s * 2 - 1 < 1 := by
  have h3 : 0 < a / s := div_pos h1 hs
  have h4 : a / s < 1 := (div_lt_one hs).mpr h2
  constructor <;> linarith

/-- C3: whenever both effective size components are strictly positive and
`isInside` holds for a pointer, both components of `getNormalized` for the
same arguments lie strictly between -1 and 1 (hence in `[-1, 1]`). -/
theorem C3_getNormalized_within_unit_square (v : Viewport) (width height px py : ℚ)
    (hsx : 0 < (Viewport.effectiveSize v width height).x)
    (hsy : 0 < (Viewport.effectiveSize v width height).y)
    (hin : Viewport.isInside v width height px py = true) :
    (-1 < (Viewport.getNormalized v width height px py).x ∧
     (Viewport.getNormalized v width height px py).x < 1) ∧
    (-1 < (Viewport.getNormalized v width height px py).y ∧
     (Viewport.getNormalized v width height px py).y < 1) := by
  by_cases h1 : v.anchor = Viewport.TOP_LEFT
  · obtain ⟨ha, hb, hc, hd⟩ := (isInside_iff_TL v width height px py h1).mp hin
    simp only [Viewport.getNormalized]
    rw [if_pos h1]
    exact ⟨⟨(normalized_bound_plus hsx (by linarith) (by linarith)).1,
            (normalized_bound_plus hsx (by linarith) (by linarith)).2⟩,
           ⟨(normalized_bound_plus hsy (by linarith) (by linarith)).1,
            (normalized_bound_plus hsy (by linarith) (by linarith)).2⟩⟩
  by_cases h2 : v.anchor = Viewport.TOP_RIGHT
  · obtain ⟨ha, hb, hc, hd⟩ := (isInside_iff_TR v width height px py h2).mp hin
    simp only [Viewport.getNormalized]
    rw [if_neg h1, if_pos h2]
    exact ⟨⟨(normalized_bound_minus hsx (by linarith) (by linarith)).1,
            (normalized_bound_minus hsx (by linarith) (by linarith)).2⟩,
           ⟨(normalized_bound_plus hsy (by linarith) (by linarith)).1,
            (normalized_bound_plus hsy (by linarith) (by linarith)).2⟩⟩
  by_cases h3 : v.anchor = Viewport.BOTTOM_LEFT
  · obtain ⟨ha, hb, hc, hd⟩ := (isInside_iff_BL v width height px py h3).mp hin
    simp only [Viewport.getNormalized]
    rw [if_neg h1, if_neg h2, if_pos h3]
    exact ⟨⟨(normalized_bound_plus hsx (by linarith) (by linarith)).1,
            (normalized_bound_plus hsx (by linarith) (by linarith)).2⟩,
           ⟨(normalized_bound_minus hsy (by linarith) (by linarith)).1,
            (normalized_bound_minus hsy (by linarith) (by linarith)).2⟩⟩
  · obtain ⟨ha, hb, hc, hd⟩ := (isInside_iff_BR v width height px py h1 h2 h3).mp hin
    simp only [Viewport.getNormalized]
    rw [if_neg h1, if_neg h2, if_neg h3]
    exact ⟨⟨(normalized_bound_minus hsx (by linarith) (by linarith)).1,
            (normalized_bound_minus hsx (by linarith) (by linarith)).2⟩,
           ⟨(normalized_bound_minus hsy (by linarith) (by linarith)).1,
            (normalized_bound_minus hsy (by linarith) (by linarith)).2⟩⟩

/-- C3 witness: the default viewport over an 800 by 600 surface has
positive effective sizes, contains the pointer `(400, 300)`, and its
normalized coordinates there lie strictly between -1 and 1. -/
theorem C3_getNormalized_witness :
    0 < (Viewport.effectiveSize (Viewport.new none) 800 600).x ∧
    0 < (Viewport.effectiveSize (Viewport.new none) 800 600).y ∧
    Viewport.isInside (Viewport.new none) 800 600 400 300 = true ∧
    ((-1 < (Viewport.getNormalized (Viewport.new none) 800 600 400 300).x ∧
      (Viewport.getNormalized (Viewport.new none) 800 600 400 300).x < 1) ∧
     (-1 < (Viewport.getNormalized (Viewport.new none) 800 600 400 300).y ∧
      (Viewport.getNormalized (Viewport.new none) 800 600 400 300).y < 1)) := by
  have hsx : 0 < (Viewport.effectiveSize (Viewport.new none) 800 600).x := by
    norm_num [Viewport.effectiveSize, Viewport.new, Viewport.RELATIVE]
  have hsy : 0 < (Viewport.effectiveSize (Viewport.new none) 800 600).y := by
    norm_num [Viewport.effectiveSize, Viewport.new, Viewport.RELATIVE]
  have hin : Viewport.isInside (Viewport.new none) 800 600 400 300 = true := by
    refine (isInside_iff_TL (Viewport.new none) 800 600 400 300 rfl).mpr ?_
    norm_num [Viewport.effectiveOffset, Viewport.effectiveSize, Viewport.new,
      Viewport.RELATIVE]
  exact ⟨hsx, hsy, hin,
    C3_getNormalized_within_unit_square (Viewport.new none) 800 600 400 300 hsx hsy hin⟩

/-- C9: for any of the four anchor values (and any mode, offset, size and
surface), a pointer `(px, py)` in top-left-origin surface coordinates
satisfies `isInside` exactly when the vertically flipped point
`(px, height - py)` lies strictly inside the bottom-left-origin rectangle
`(x, y, w, h)` that `enable` passes to both `setViewport` and
`setScissor`: the two methods describe the same physical rectangle. -/
theorem C9_isInside_agrees_with_enable (v : Viewport) (r : WebGLRenderer) (px py : ℚ)
    (h : v.anchor = Viewport.TOP_LEFT ∨ v.anchor = Viewport.TOP_RIGHT ∨
         v.anchor = Viewport.BOTTOM_LEFT ∨ v.anchor = Viewport.BOTTOM_RIGHT) :
    (Viewport.enable v r).scissor = (Viewport.enable v r).viewport ∧
    (Viewport.isInside v r.domElementWidth r.domElementHeight px py = true ↔
      ((Viewport.enable v r).viewport.x < px ∧
       px < (Viewport.enable v r).viewport.x + (Viewport.enable v r).viewport.z ∧
       (Viewport.enable v r).viewport.y < r.domElementHeight - py ∧
       r.domElementHeight - py < (Viewport.enable v r).viewport.y +
         (Viewport.enable v r).viewport.w)) := by
  rcases h with h | h | h | h
  · rw [enable_eq_TL v r h, isInside_iff_TL v _ _ px py h]
    dsimp only
    refine ⟨rfl, ?_⟩
    constructor
    · rintro ⟨a, b, c, d⟩
      exact ⟨by linarith, by linarith, by linarith, by linarith⟩
    · rintro ⟨a, b, c, d⟩
      exact ⟨by linarith, by linarith, by linarith, by linarith⟩
  · rw [enable_eq_TR v r (by rw [h]; decide) (by rw [h]; decide) (by rw [h]; decide),
      isInside_iff_TR v _ _ px py h]
    dsimp only
    refine ⟨rfl, ?_⟩
    constructor
    · rintro ⟨a, b, c, d⟩
      exact ⟨by linarith, by linarith, by linarith, by linarith⟩
    · rintro ⟨a, b, c, d⟩
      exact ⟨by linarith, by linarith, by linarith, by linarith⟩
  · rw [enable_eq_BL v r h, isInside_iff_BL v _ _ px py h]
    dsimp only
    refine ⟨rfl, ?_⟩
    constructor
    · rintro ⟨a, b, c, d⟩
      exact ⟨by linarith, by linarith, by linarith, by linarith⟩
    · rintro ⟨a, b, c, d⟩
      exact ⟨by linarith, by linarith, by linarith, by linarith⟩
  · rw [enable_eq_BR v r h,
      isInside_iff_BR v _ _ px py (by rw [h]; decide) (by rw [h]; decide) (by rw [h]; decide)]
    dsimp only
    refine ⟨rfl, ?_⟩
    constructor
    · rintro ⟨a, b, c, d⟩
      exact ⟨by linarith, by linarith, by linarith, by linarith⟩
    · rintro ⟨a, b, c, d⟩
      exact ⟨by linarith, by linarith, by linarith, by linarith⟩

/-- C9 witness: for the ABSOLUTE TOP_LEFT viewport with offset `(10, 10)`
and size `(100, 50)` over a 1000 by 500 surface, scissor and viewport
rectangles agree, and the pointer `(20, 15)` is reported inside, matching
its flipped point lying inside the rectangle passed to the backend. -/
theorem C9_isInside_agrees_witness :
    ((⟨⟨10, 10⟩, ⟨100, 50⟩, Viewport.ABSOLUTE, Viewport.TOP_LEFT, Vector4.new⟩ :
        Viewport).anchor = Viewport.TOP_LEFT ∨
     (⟨⟨10, 10⟩, ⟨100, 50⟩, Viewport.ABSOLUTE, Viewport.TOP_LEFT, Vector4.new⟩ :
        Viewport).anchor = Viewport.TOP_RIGHT ∨
     (⟨⟨10, 10⟩, ⟨100, 50⟩, Viewport.ABSOLUTE, Viewport.TOP_LEFT, Vector4.new⟩ :
        Viewport).anchor = Viewport.BOTTOM_LEFT ∨
     (⟨⟨10, 10⟩, ⟨100, 50⟩, Viewport.ABSOLUTE, Viewport.TOP_LEFT, Vector4.new⟩ :
        Viewport).anchor = Viewport.BOTTOM_RIGHT) ∧
    (Viewport.enable
        ⟨⟨10, 10⟩, ⟨100, 50⟩, Viewport.ABSOLUTE, Viewport.TOP_LEFT, Vector4.new⟩
        ⟨1000, 500, Vector4.new, Vector4.new⟩).scissor =
      (Viewport.enable
        ⟨⟨10, 10⟩, ⟨100, 50⟩, Viewport.ABSOLUTE, Viewport.TOP_LEFT, Vector4.new⟩
        ⟨1000, 500, Vector4.new, Vector4.new⟩).viewport ∧
    Viewport.isInside
      ⟨⟨10, 10⟩, ⟨100, 50⟩, Viewport.ABSOLUTE, Viewport.TOP_LEFT, Vector4.new⟩
      1000 500 20 15 = true := by
  have h9 := C9_isInside_agrees_with_enable
    ⟨⟨10, 10⟩, ⟨100, 50⟩, Viewport.ABSOLUTE, Viewport.TOP_LEFT, Vector4.new⟩
    ⟨1000, 500, Vector4.new, Vector4.new⟩ 20 15 (Or.inl rfl)
  refine ⟨Or.inl rfl, h9.1, h9.2.mpr ?_⟩
  rw [enable_eq_TL _ _ rfl]
  norm_num [Viewport.effectiveOffset, Viewport.effectiveSize,
    Viewport.RELATIVE, Viewport.ABSOLUTE]

/-- C10: whenever either effective size component is zero or negative, the
open-rectangle test of `isInside` is unsatisfiable, so the method returns
`false` for every pointer, mode and anchor. -/
theorem C10_degenerate_viewport_contains_nothing (v : Viewport)
    (width height px py : ℚ)
    (h : (Viewport.effectiveSize v width height).x ≤ 0 ∨
         (Viewport.effectiveSize v width height).y ≤ 0) :
    Viewport.isInside v width height px py = false := by
  refine Bool.eq_false_iff.mpr fun hin => ?_
  by_cases h1 : v.anchor = Viewport.TOP_LEFT
  · obtain ⟨ha, hb, hc, hd⟩ := (isInside_iff_TL v width height px py h1).mp hin
    rcases h with h | h <;> linarith
  by_cases h2 : v.anchor = Viewport.TOP_RIGHT
  · obtain ⟨ha, hb, hc, hd⟩ := (isInside_iff_TR v width height px py h2).mp hin
    rcases h with h | h <;> linarith
  by_cases h3 : v.anchor = Viewport.BOTTOM_LEFT
  · obtain ⟨ha, hb, hc, hd⟩ := (isInside_iff_BL v width height px py h3).mp hin
    rcases h with h | h <;> linarith
  · obtain ⟨ha, hb, hc, hd⟩ := (isInside_iff_BR v width height px py h1 h2 h3).mp hin
    rcases h with h | h <;> linarith

/-- C10 witness: an ABSOLUTE viewport of size `(0, 0)` has non-positive
effective size and reports the pointer `(5, 5)` outside on a 100 by 100
surface. -/
theorem C10_degenerate_witness :
    ((Viewport.effectiveSize
        ⟨⟨0, 0⟩, ⟨0, 0⟩, Viewport.ABSOLUTE, Viewport.TOP_LEFT, Vector4.new⟩
        100 100).x ≤ 0 ∨
     (Viewport.effectiveSize
        ⟨⟨0, 0⟩, ⟨0, 0⟩, Viewport.ABSOLUTE, Viewport.TOP_LEFT, Vector4.new⟩
        100 100).y ≤ 0) ∧
    Viewport.isInside
      ⟨⟨0, 0⟩, ⟨0, 0⟩, Viewport.ABSOLUTE, Viewport.TOP_LEFT, Vector4.new⟩
      100 100 5 5 = false := by
  have hx : (Viewport.effectiveSize
      ⟨⟨0, 0⟩, ⟨0, 0⟩, Viewport.ABSOLUTE, Viewport.TOP_LEFT, Vector4.new⟩
      100 100).x ≤ 0 := by
    norm_num [Viewport.effectiveSize, Viewport.RELATIVE, Viewport.ABSOLUTE]
  exact ⟨Or.inl hx,
    C10_degenerate_viewport_contains_nothing _ 100 100 5 5 (Or.inl hx)⟩
